import Mathlib

/-!
Verification of the `Message` abstraction of `src/puppet/message.ts`
(wechaty). The concrete members of the abstract class (`find`, `findAll`,
`create`, the constructor, `toString`, `content`) are embedded directly
from the source. The abstract members (`ready`, `say`, `forward`,
`mentioned`, the `from`/`to`/`room` accessors) have no implementation in
the file; they are modelled from the specification's description of the
Hydration Protocol, Mention Resolver and Reply/Forward Dispatcher.
-/

set_option autoImplicit false

namespace Wechaty

/-- Modelled from the spec: the message `kind` enumeration
({TEXT, MEDIA, APP, LOCATION, RECALLED, ...}); the concrete numeric
`WebMsgType` enum lives in `puppet-puppeteer/schema`, which is not part of
the sources. Only the `TEXT` discriminator and the reverse name lookup
`WebMsgType[...]` matter for the embedded code. -/
inductive WebMsgType
  | TEXT
  | MEDIA
  | APP
  | LOCATION
  | RECALLED
deriving DecidableEq, Repr

/-- Reverse enum lookup `WebMsgType[t]`: the name of the enum member. -/
def WebMsgType.name : WebMsgType → String
  | .TEXT     => "TEXT"
  | .MEDIA    => "MEDIA"
  | .APP      => "APP"
  | .LOCATION => "LOCATION"
  | .RECALLED => "RECALLED"

abbrev ContactId := String
abbrev RoomId := String

/-- A resolved contact record, owned by Directory Services. -/
structure Contact where
  id : ContactId
deriving DecidableEq, Repr

/-- A resolved room record, owned by Directory Services. -/
structure Room where
  id : RoomId
deriving DecidableEq, Repr

/-- Modelled from the spec: `hydrationState`: {RAW, HYDRATING, READY}. -/
inductive HydrationState
  | RAW
  | HYDRATING
  | READY
deriving DecidableEq, Repr

/-- Modelled from the spec: error taxonomy of section 7. The deprecated
`content()` throw of the source is the `UnsupportedOperation` case
("intentionally retired (`content()`)"). -/
inductive WechatyError
  | notHydrated
  | hydrationError
  | danglingReference
  | unsupportedOperation (msg : String)
  | sendFailure
deriving DecidableEq, Repr

/-- A raw payload object passed to the constructor, as in
`new (this as any)(\x7b MsgId: 'id1' \x7d)`: a list of key/value pairs. -/
abbrev PayloadObject := List (String × String)

/-- The `Message` entity. The field `fileOrPayload` is the single datum the
source constructor stores (`constructor(readonly fileOrPayload?: string |
Object)`); the remaining fields are the entity state of spec section 3,
which the source exposes only through abstract accessors
(`type`, `text`, `filename`, `from`, `to`, `room`, `mentioned`, ...). -/
structure Message where
  fileOrPayload : Option (String ⊕ PayloadObject) := none
  id : String := ""
  kind : WebMsgType := .TEXT
  subKind : Option WebMsgType := none
  appKind : Option String := none
  sender : Option Contact := none
  recipient : Option Contact := none
  room : Option Room := none
  text : String := ""
  filename : Option String := none
  ext : String := ""
  mimeType : Option String := none
  mentions : List Contact := []
  selfFlag : Bool := false
  hydrationState : HydrationState := .RAW
deriving DecidableEq, Repr

/-- The `type()` accessor: returns the entity's kind. -/
def Message.type (m : Message) : WebMsgType := m.kind

/-- The source constructor: stores `fileOrPayload`; all entity state starts
in its RAW default. -/
def Message.create (fileOrPayload : Option (String ⊕ PayloadObject)) : Message :=
  { fileOrPayload := fileOrPayload }

/-- JavaScript template-literal rendering of a nullable string:
`null` prints as the text "null". -/
def renderNullable : Option String → String
  | none => "null"
  | some s => s

/-- Embedded from `Message.toString` (message.ts lines 99-105):
if `this.type() === Message.Type.TEXT` the label interpolates `text()`,
otherwise it interpolates `filename()`. -/
def Message.toString (m : Message) : String :=
  if m.type = WebMsgType.TEXT then
    "Message#" ++ m.type.name ++ "<" ++ m.text ++ ">"
  else
    "Message#" ++ m.type.name ++ "<" ++ renderNullable m.filename ++ ">"

/-- The message of the `throw` in `Message.content` (message.ts line 171). -/
def deprecatedContentMessage : String :=
  "Deprecated. Use `text()` instead of `content()`. See https://github.com/Chatie/wechaty/issues/1163"

/-- Embedded from `Message.content` (message.ts lines 158-172): every call,
with or without an argument, throws. The thrown error is the
`UnsupportedOperation` case of the spec's error taxonomy. -/
def Message.content (m : Message) (arg : Option String) : Except WechatyError String :=
  .error (.unsupportedOperation deprecatedContentMessage)

/-- Embedded from `Message.findAll` (message.ts lines 60-68): the query is
unused; the result is the two-element list of freshly constructed entities
with payloads `\x7b MsgId: 'id1' \x7d` and `\x7b MsdId: 'id2' \x7d`. -/
def Message.findAll {α : Type} (query : α) : List Message :=
  [ Message.create (some (Sum.inr [("MsgId", "id1")])),
    Message.create (some (Sum.inr [("MsdId", "id2")])) ]

/-- Embedded from `Message.find` (message.ts lines 50-55):
`(await this.findAll(query))[0]` — the first element of `findAll`'s result
(JavaScript indexing past the end would give `undefined`, hence `Option`). -/
def Message.find {α : Type} (query : α) : Option Message :=
  (Message.findAll query).head?

/-- Modelled from the spec: Directory Services (external collaborator),
`findContact(id) -> Contact | NotFound`, `findRoom(id) -> Room | NotFound`. -/
structure Directory where
  contacts : List Contact
  rooms : List Room
deriving DecidableEq, Repr

def Directory.findContact (d : Directory) (cid : ContactId) : Option Contact :=
  d.contacts.find? (fun c => c.id = cid)

def Directory.findRoom (d : Directory) (rid : RoomId) : Option Room :=
  d.rooms.find? (fun r => r.id = rid)

/-- Modelled from the spec: the raw wire payload fetched by the Transport
Session. Per section 2, a message belongs to either a direct peer or a
room, never unambiguously both, so the address reference is a sum. -/
structure RawPayload where
  id : String
  kind : WebMsgType
  senderId : ContactId
  address : ContactId ⊕ RoomId
  text : String
  filename : Option String
  ext : String
  mimeType : Option String
  mentionIds : List ContactId
deriving DecidableEq, Repr

/-- Modelled from the spec: Transport Session (external collaborator),
`fetchPayload(id) -> RawPayload | Unreachable`. -/
structure TransportSession where
  payloads : List RawPayload
deriving DecidableEq, Repr

def TransportSession.fetchPayload (s : TransportSession) (mid : String) : Option RawPayload :=
  s.payloads.find? (fun p => p.id = mid)

/-- Modelled from the spec: the Mention Resolver on the explicit-id path
(section 4.3): resolve each id via Directory Services in listed order;
unresolvable ids are dropped (with a recorded warning), not a failure;
duplicates are preserved in original order. -/
def resolveMentions (d : Directory) (ids : List ContactId) : List Contact :=
  ids.filterMap d.findContact

/-- Modelled from the spec: one hydration pass (section 4.2). Fetch the
full payload from the Transport Session by `id` — failure or a mismatched
id is a `HydrationError`; sender resolution failure is fatal
(`DanglingReferenceError`); recipient/room resolution failure downgrades
that field to null; run the Mention Resolver; populate attachment
metadata; mark READY. -/
def Message.hydrateOnce (d : Directory) (s : TransportSession) (m : Message) :
    Except WechatyError Message :=
  match s.fetchPayload m.id with
  | none => .error .hydrationError
  | some p =>
    if p.id ≠ m.id then .error .hydrationError
    else match d.findContact p.senderId with
      | none => .error .danglingReference
      | some sender =>
        .ok { m with
              kind := p.kind,
              sender := some sender,
              recipient := match p.address with
                | .inl cid => d.findContact cid
                | .inr _ => none,
              room := match p.address with
                | .inl _ => none
                | .inr rid => d.findRoom rid,
              text := p.text,
              filename := p.filename,
              ext := p.ext,
              mimeType := p.mimeType,
              mentions := resolveMentions d p.mentionIds,
              hydrationState := .READY }

/-- Modelled from the spec: `ready()` (section 4.2) — if already READY,
return immediately (no fetch); otherwise hydrate, performing one
Transport Session fetch. The second component counts the underlying
fetches performed by the call. -/
def Message.ready (d : Directory) (s : TransportSession) (m : Message) :
    Except WechatyError (Message × Nat) :=
  if m.hydrationState = .READY then .ok (m, 0)
  else (m.hydrateOnce d s).map (fun hydrated => (hydrated, 1))

/-- The payload of a `say`/`forward` dispatch: literal text or a whole
already-hydrated Message entity. -/
inductive SayContent
  | text (s : String)
  | message (m : Message)
deriving DecidableEq, Repr

/-- A dispatch handed to the Transport Session:
`send(target: Contact|Room, content, mentions?)`. -/
structure SendAction where
  targetContact : Option Contact
  targetRoom : Option Room
  content : SayContent
  mentions : List Contact
deriving DecidableEq, Repr

/-- Modelled from the spec: `say(textOrMessage, mentions?)` (section 4.4).
If the source message's `room` is set, the reply targets that room,
attaching `mentions` as a room-scoped @mention annotation; otherwise the
reply targets `from()` (the sender) as a direct message and `mentions` is
ignored (not an error). -/
def Message.say (m : Message) (payload : SayContent) (mentions : Option (List Contact)) :
    SendAction :=
  match m.room with
  | some r =>
    { targetContact := none, targetRoom := some r,
      content := payload, mentions := mentions.getD [] }
  | none =>
    { targetContact := m.sender, targetRoom := none,
      content := payload, mentions := [] }

/-- A forward target: a Contact or a Room. -/
inductive Target
  | contact (c : Contact)
  | room (r : Room)
deriving DecidableEq, Repr

/-- Modelled from the spec: `forward(target)` (section 4.4). Re-sends the
current (already hydrated) message's content to `target` unchanged; does
not mutate the original entity (returned alongside the dispatch); fails
with `NotHydrated` if called before `ready()`. -/
def Message.forward (m : Message) (t : Target) :
    Except WechatyError (SendAction × Message) :=
  if m.hydrationState = .READY then
    .ok ({ targetContact := match t with | .contact c => some c | .room _ => none,
           targetRoom := match t with | .contact _ => none | .room r => some r,
           content := .message m, mentions := [] }, m)
  else .error .notHydrated

/-- The addressing invariant of spec section 3: exactly one of
`recipient`/`room` is non-null. -/
def Message.exactlyOneAddr (m : Message) : Bool :=
  xor m.recipient.isSome m.room.isSome

/-- The payload's recipient/room reference resolves in the Directory. -/
def addrResolves (d : Directory) (p : RawPayload) : Bool :=
  match p.address with
  | .inl cid => (d.findContact cid).isSome
  | .inr rid => (d.findRoom rid).isSome

/-! Concrete demonstration data used by witnesses and counterexamples. -/

def demoDirectory : Directory :=
  { contacts := [⟨"alice"⟩, ⟨"bob"⟩], rooms := [⟨"lobby"⟩] }

def demoPayload : RawPayload :=
  { id := "m1", kind := .TEXT, senderId := "alice", address := .inr "lobby",
    text := "hi", filename := none, ext := "", mimeType := none, mentionIds := [] }

def demoSession : TransportSession := { payloads := [demoPayload] }

def demoRaw : Message := { id := "m1" }

/-- The entity `demoRaw` hydrates to against `demoDirectory`/`demoSession`. -/
def demoHydrated : Message :=
  { id := "m1", kind := .TEXT, sender := some ⟨"alice"⟩, room := some ⟨"lobby"⟩,
    text := "hi", hydrationState := .READY }

/-- A hydrated direct message (no room). -/
def demoDirect : Message :=
  { id := "m3", kind := .TEXT, sender := some ⟨"alice"⟩, recipient := some ⟨"bob"⟩,
    text := "yo", hydrationState := .READY }

/-- A payload whose room reference ("ghost") is absent from `demoDirectory`. -/
def danglingPayload : RawPayload :=
  { id := "m2", kind := .TEXT, senderId := "alice", address := .inr "ghost",
    text := "hello", filename := none, ext := "", mimeType := none, mentionIds := [] }

def danglingSession : TransportSession := { payloads := [danglingPayload] }

def danglingRaw : Message := { id := "m2" }

/-- The entity `danglingRaw` hydrates to: READY, but both `recipient` and
`room` are null because the room reference dangled. -/
def danglingHydrated : Message :=
  { id := "m2", kind := .TEXT, sender := some ⟨"alice"⟩, text := "hello",
    hydrationState := .READY }

/-! Helper lemmas. -/

theorem hydrateOnce_state (d : Directory) (s : TransportSession) (m m' : Message)
    (h : Message.hydrateOnce d s m = .ok m') : m'.hydrationState = .READY := by
  unfold Message.hydrateOnce at h
  split at h
  · exact Except.noConfusion h
  · split at h
    · exact Except.noConfusion h
    · split at h
      · exact Except.noConfusion h
      · injection h with h2
        subst h2
        rfl

/-! Claim theorems. -/

/-- Claim C1: for every entity and for every argument (no argument or any
string), `content()` fails unconditionally with `UnsupportedOperation`;
it never returns a value, in particular it never silently forwards to
`text()`. -/
theorem content_always_unsupported (m : Message) (arg : Option String) :
    m.content arg = .error (.unsupportedOperation deprecatedContentMessage) ∧
    (∀ s : String, m.content arg ≠ .ok s) := by
  refine ⟨rfl, ?_⟩
  intro s h
  exact Except.noConfusion h

/-- Claim C2: `toString()` produces a debug label that includes the value
of `text()` when the entity's kind is TEXT, and includes the (rendered)
value of `filename()` for every other kind. -/
theorem toString_includes_text_or_filename (m : Message) :
    (m.type = WebMsgType.TEXT →
      ∃ pre post, m.toString = pre ++ (m.text ++ post)) ∧
    (m.type ≠ WebMsgType.TEXT →
      ∃ pre post, m.toString = pre ++ (renderNullable m.filename ++ post)) := by
  constructor
  · intro h
    refine ⟨"Message#" ++ m.type.name ++ "<", ">", ?_⟩
    simp [Message.toString, h, String.append_assoc]
  · intro h
    refine ⟨"Message#" ++ m.type.name ++ "<", ">", ?_⟩
    simp [Message.toString, h, String.append_assoc]

/-- Witness for C2: a TEXT entity with text "hi" includes "hi"; a MEDIA
entity with filename "photo.jpg" includes "photo.jpg". -/
theorem toString_includes_text_or_filename_witness :
    (∃ pre post,
      ({ kind := .TEXT, text := "hi" } : Message).toString = pre ++ ("hi" ++ post)) ∧
    (∃ pre post,
      ({ kind := .MEDIA, filename := some "photo.jpg" } : Message).toString =
        pre ++ ("photo.jpg" ++ post)) :=
  ⟨(toString_includes_text_or_filename { kind := .TEXT, text := "hi" }).1 rfl,
   (toString_includes_text_or_filename { kind := .MEDIA, filename := some "photo.jpg" }).2
     (by decide)⟩

/-- Claim C3: calling `ready()` a second time, sequentially after a
completed first call, is a no-op: it returns the already-hydrated entity
unchanged with zero further fetches, and the first call performed at most
one fetch (so at most one fetch happens in total). -/
theorem ready_second_call_noop (d : Directory) (s : TransportSession)
    (m m₁ : Message) (n₁ : Nat)
    (h : Message.ready d s m = .ok (m₁, n₁)) :
    Message.ready d s m₁ = .ok (m₁, 0) ∧ n₁ ≤ 1 := by
  have hstate : m₁.hydrationState = .READY ∧ n₁ ≤ 1 := by
    unfold Message.ready at h
    split at h
    · next hr =>
        simp only [Except.ok.injEq, Prod.mk.injEq] at h
        obtain ⟨rfl, rfl⟩ := h
        exact ⟨hr, by omega⟩
    · cases hh : Message.hydrateOnce d s m with
      | error e => rw [hh] at h; exact Except.noConfusion h
      | ok mh =>
        rw [hh] at h
        simp only [Except.map, Except.ok.injEq, Prod.mk.injEq] at h
        obtain ⟨rfl, rfl⟩ := h
        exact ⟨hydrateOnce_state d s m mh hh, by omega⟩
  refine ⟨?_, hstate.2⟩
  simp [Message.ready, hstate.1]

/-- Witness for C3: a concrete RAW entity hydrates with one fetch; the
second call returns it unchanged with zero fetches. -/
theorem ready_second_call_noop_witness :
    Message.ready demoDirectory demoSession demoHydrated = .ok (demoHydrated, 0) ∧
    (1 : Nat) ≤ 1 :=
  ready_second_call_noop demoDirectory demoSession demoRaw demoHydrated 1 rfl

/-- C4 counterexample: hydration of a room message whose room reference
dangles still completes (section 4.2 downgrades the unresolvable
recipient/room field to null instead of aborting), yielding a READY
entity with `to()` and `room()` both null — the claimed invariant fails. -/
theorem hydration_exactly_one_addr_counterexample :
    Message.hydrateOnce demoDirectory danglingSession danglingRaw = .ok danglingHydrated ∧
    danglingHydrated.hydrationState = .READY ∧
    danglingHydrated.recipient = none ∧
    danglingHydrated.room = none ∧
    danglingHydrated.exactlyOneAddr = false :=
  ⟨rfl, rfl, rfl, rfl, rfl⟩

/-- Claim C4 (amended): for every entity whose hydration completed against
a Directory in which the payloads' recipient/room references resolve,
exactly one of `to()` and `room()` is non-null; when the reference
dangles, the field is downgraded to null and the entity may have neither. -/
theorem hydration_exactly_one_addr (d : Directory) (s : TransportSession)
    (m m' : Message)
    (h : Message.hydrateOnce d s m = .ok m')
    (hres : ∀ p ∈ s.payloads, addrResolves d p = true) :
    m'.exactlyOneAddr = true := by
  unfold Message.hydrateOnce at h
  split at h
  · exact Except.noConfusion h
  · next p hf =>
    have hp : p ∈ s.payloads := List.mem_of_find?_eq_some hf
    have hres' := hres p hp
    split at h
    · exact Except.noConfusion h
    · split at h
      · exact Except.noConfusion h
      · injection h with h2
        subst h2
        cases ha : p.address with
        | inl cid =>
          simp only [addrResolves, ha] at hres'
          simp [Message.exactlyOneAddr, ha, hres']
        | inr rid =>
          simp only [addrResolves, ha] at hres'
          simp [Message.exactlyOneAddr, ha, hres']

/-- Witness for amended C4: the concrete hydration of `demoRaw` satisfies
the invariant. -/
theorem hydration_exactly_one_addr_witness :
    Wechaty.demoHydrated.exactlyOneAddr = true :=
  hydration_exactly_one_addr demoDirectory demoSession demoRaw demoHydrated
    rfl (by decide)

/-- Claim C5: for every hydrated entity and payload, `say` targets the
entity's room when `room()` is non-null, attaching the mentions; otherwise
it targets `from()` as a direct message, where supplying mentions is
ignored (the dispatch is the same for any mentions argument) and is not an
error. -/
theorem say_targets_room_else_sender (m : Message) (payload : SayContent)
    (mentions : Option (List Contact))
    (hm : m.hydrationState = .READY) :
    (∀ r, m.room = some r →
      m.say payload mentions =
        { targetContact := none, targetRoom := some r,
          content := payload, mentions := mentions.getD [] }) ∧
    (m.room = none →
      m.say payload mentions =
        { targetContact := m.sender, targetRoom := none,
          content := payload, mentions := [] } ∧
      ∀ other : Option (List Contact), m.say payload mentions = m.say payload other) := by
  refine ⟨?_, ?_⟩
  · intro r hr
    simp [Message.say, hr]
  · intro hr
    constructor
    · simp [Message.say, hr]
    · intro other
      simp [Message.say, hr]

/-- Witness for C5: a room reply carries the room target and the mentions;
a direct reply targets the sender and drops the mentions. -/
theorem say_targets_room_else_sender_witness :
    demoHydrated.say (.text "pong") (some [⟨"bob"⟩]) =
      { targetContact := none, targetRoom := some ⟨"lobby"⟩,
        content := .text "pong", mentions := [⟨"bob"⟩] } ∧
    demoDirect.say (.text "pong") (some [⟨"bob"⟩]) =
      { targetContact := some ⟨"alice"⟩, targetRoom := none,
        content := .text "pong", mentions := [] } :=
  ⟨(say_targets_room_else_sender demoHydrated (.text "pong") (some [⟨"bob"⟩]) rfl).1
      ⟨"lobby"⟩ rfl,
   ((say_targets_room_else_sender demoDirect (.text "pong") (some [⟨"bob"⟩]) rfl).2 rfl).1⟩

/-- Claim C6: mention resolution preserves input order and multiplicity
without deduplication: when every identifier in the raw mention list
resolves to the corresponding contact, the resolved sequence is exactly
those contacts in the original order, duplicates kept. -/
theorem resolveMentions_order_multiplicity (d : Directory) (ids : List ContactId)
    (cs : List Contact)
    (h : ids.map d.findContact = cs.map Option.some) :
    resolveMentions d ids = cs := by
  induction ids generalizing cs with
  | nil =>
    cases cs with
    | nil => rfl
    | cons c cs' => simp at h
  | cons i is ih =>
    cases cs with
    | nil => simp at h
    | cons c cs' =>
      simp only [List.map_cons, List.cons.injEq] at h
      simp only [resolveMentions, List.filterMap_cons, h.1]
      exact congrArg (c :: ·) (ih cs' h.2)

/-- Witness for C6: input mention list [alice, alice, bob] resolves to
[alice, alice, bob]. -/
theorem resolveMentions_order_multiplicity_witness :
    resolveMentions demoDirectory ["alice", "alice", "bob"] =
      [⟨"alice"⟩, ⟨"alice"⟩, ⟨"bob"⟩] :=
  resolveMentions_order_multiplicity demoDirectory ["alice", "alice", "bob"]
    [⟨"alice"⟩, ⟨"alice"⟩, ⟨"bob"⟩] (by decide)

/-- Claim C7: on a hydrated entity, `forward(target)` re-sends the
entity's content unchanged and returns the original entity unmutated
(same `id`, `filename`, `mimeType` — indeed the very same entity); called
before hydration completes it fails with `NotHydrated`. -/
theorem forward_unchanged_or_not_hydrated (m : Message) (t : Target) :
    (m.hydrationState = .READY →
      ∃ a : SendAction, m.forward t = .ok (a, m) ∧ a.content = .message m ∧
        a.mentions = []) ∧
    (m.hydrationState ≠ .READY → m.forward t = .error .notHydrated) := by
  constructor
  · intro hm
    refine ⟨{ targetContact := match t with | .contact c => some c | .room _ => none,
              targetRoom := match t with | .contact _ => none | .room r => some r,
              content := .message m, mentions := [] }, ?_, rfl, rfl⟩
    simp [Message.forward, hm]
  · intro hm
    simp [Message.forward, hm]

/-- Witness for C7: forwarding a concrete hydrated entity returns it
unchanged; forwarding a RAW entity fails with `NotHydrated`. -/
theorem forward_unchanged_or_not_hydrated_witness :
    (∃ a : SendAction,
      demoHydrated.forward (.room ⟨"lobby"⟩) = .ok (a, demoHydrated) ∧
      a.content = .message demoHydrated ∧ a.mentions = []) ∧
    demoRaw.forward (.room ⟨"lobby"⟩) = .error .notHydrated :=
  ⟨(forward_unchanged_or_not_hydrated demoHydrated (.room ⟨"lobby"⟩)).1 rfl,
   (forward_unchanged_or_not_hydrated demoRaw (.room ⟨"lobby"⟩)).2 (by decide)⟩

/-- Claim C8: for every query, `find(query)` returns exactly the first
element of the list returned by `findAll(query)`. -/
theorem find_is_head_of_findAll {α : Type} (query : α) :
    ∃ m rest, Message.findAll query = m :: rest ∧ Message.find query = some m :=
  ⟨_, _, rfl, rfl⟩

/-- Claim C9: for every query (of any type), `findAll` ignores the query
and returns exactly the two freshly constructed entities with payloads
\x7b MsgId: 'id1' \x7d and \x7b MsdId: 'id2' \x7d (the second key is the
misspelled 'MsdId'). -/
theorem findAll_ignores_query {α β : Type} (q : α) (q' : β) :
    Message.findAll q =
      [ Message.create (some (Sum.inr [("MsgId", "id1")])),
        Message.create (some (Sum.inr [("MsdId", "id2")])) ] ∧
    Message.findAll q = Message.findAll q' :=
  ⟨rfl, rfl⟩

/-- Claim C10: for every query, `find(query)` never returns null, because
`findAll(query)` always returns a non-empty list. -/
theorem find_never_null {α : Type} (q : α) :
    (Message.find q).isSome = true ∧ Message.findAll q ≠ [] :=
  ⟨rfl, fun h => List.noConfusion h⟩

end Wechaty
